import Mathlib

/-!
Verification of the semester-promotion / roster-migration workflow of the
Smart-Attendance backend, embedded shallowly from
`src/routes/teacherRoutes.js` (the `simple-promotion/:stream` route,
lines 820-999, and its helpers `STREAM_MAPPINGS`, `getCollectionName`,
`getActiveStudentQuery`) and from the second copy of `getCollectionName`
in the unnamed route file `src/unnamed/part_000`.

Modelling conventions:
* MongoDB documents may lack a field or hold `null`; optional fields are
  `Option`-valued.  The `isActive` flag is tri-state (`true`/`false`/absent
  -or-`null`), modelled as `Option (Option Bool)` with `none` = absent and
  `some none` = null.
* Dates are abstract timestamps (`Nat`); the batch id is a `String`.
* One semester bucket is a `List Student`; the whole stream state maps the
  semester number to its bucket.
* `session.withTransaction` aborts all session writes when the callback
  throws; accordingly the route embedding returns the pre-call state
  whenever the transaction body produces an error.  Injected storage
  failures are supplied by a `FailureOracle`.
* `console.error` calls inside the two catch blocks are modelled as
  structured `LogEntry` values; the Express error middleware in
  `src/unnamed/part_001` returns `err.message` to the caller, so the
  caller-visible error of an aborted run is just the re-thrown message.
-/

namespace SmartAttendance

/-- One element of a student's `migrationHistory` array, as pushed by the
promotion route (`teacherRoutes.js:925-931`). -/
structure MigrationEntry where
  fromSemester : Nat
  toSemester : Nat
  migratedDate : Nat
  migrationBatch : String
  generation : Nat
deriving DecidableEq, Repr

/-- A student document of one stream+semester bucket (fields used by the
promotion workflow, `studentSchema` in `teacherRoutes.js`).  Optional
fields model absent-or-null document fields. -/
structure Student where
  studentID : String
  name : String
  stream : String
  semester : Nat
  parentPhone : String
  languageSubject : Option String
  languageGroup : Option String
  isActive : Option (Option Bool)
  migrationGeneration : Option Nat
  originalSemester : Option Nat
  addedToSemesterDate : Option Nat
  lastMigrationDate : Option Nat
  migrationBatch : Option String
  migrationHistory : Option (List MigrationEntry)
  academicYear : Option String
deriving DecidableEq, Repr

/-- JavaScript `a || b` on an optional numeric field: `undefined`/`null`
(modelled as `none`) and `0` are falsy, so they yield the fallback. -/
def jsOrNat : Option Nat → Nat → Nat
  | none, d => d
  | some 0, d => d
  | some (n + 1), _ => n + 1

/-- `getActiveStudentQuery` (`teacherRoutes.js:662-668`): a student matches
when `isActive` is `true`, or the field is absent, or it is `null`. -/
def isActiveStudent (s : Student) : Bool :=
  s.isActive == some (some true) || s.isActive == none || s.isActive == some none

/-- Per-run data fixed at the top of the route handler: `promotionDate`,
`promotionBatch` (`teacherRoutes.js:835-836`) and the academic year used
for the new records (`teacherRoutes.js:933`). -/
structure RunCtx where
  promotionDate : Nat
  promotionBatch : String
  academicYear : String
deriving DecidableEq, Repr

/-- The record inserted into the target bucket for one promoted student:
the `promotedStudents` map of `teacherRoutes.js:909-934`, field for field.
JavaScript `||` defaults are rendered with `jsOrNat` (numbers) and
`Option.getD` (the history array, where only absent/null is falsy). -/
def promoteStudent (ctx : RunCtx) (fromSem toSem : Nat) (student : Student) : Student :=
  { studentID := student.studentID
    name := student.name
    stream := student.stream
    semester := toSem
    parentPhone := student.parentPhone
    languageSubject := student.languageSubject
    languageGroup := student.languageGroup
    isActive := some (some true)
    migrationGeneration := some (jsOrNat student.migrationGeneration 0 + 1)
    originalSemester := some (jsOrNat student.originalSemester fromSem)
    addedToSemesterDate := some ctx.promotionDate
    lastMigrationDate := some ctx.promotionDate
    migrationBatch := some ctx.promotionBatch
    migrationHistory := some (student.migrationHistory.getD [] ++
      [{ fromSemester := fromSem
         toSemester := toSem
         migratedDate := ctx.promotionDate
         migrationBatch := ctx.promotionBatch
         generation := jsOrNat student.migrationGeneration 0 + 1 }])
    academicYear := some ctx.academicYear }

/-- The student buckets of one stream, indexed by semester number. -/
abbrev State := Nat → List Student

/-- Replace the bucket of semester `k`. -/
def setBucket (st : State) (k : Nat) (l : List Student) : State :=
  fun i => if i = k then l else st i

/-- The semester range of a stream (`teacherRoutes.js:841-849`):
`BCom Section B` covers only semesters 5-6, every other stream 1-6. -/
def semesterRange (stream : String) : List Nat :=
  if stream = "BCom Section B" then [5, 6] else [1, 2, 3, 4, 5, 6]

/-- The loop `for (let fromSem = 5; fromSem >= 1; fromSem--)` pushing
`{from: fromSem, to: fromSem + 1}` (`teacherRoutes.js:892-894`):
`descPairs 5 = [(5,6), (4,5), (3,4), (2,3), (1,2)]`. -/
def descPairs : Nat → List (Nat × Nat)
  | 0 => []
  | n + 1 => (n + 1, n + 2) :: descPairs n

/-- `promotionPairs` (`teacherRoutes.js:886-895`): one pair `5→6` for
`BCom Section B`, otherwise the descending pairs `5→6` down to `1→2`. -/
def promotionPairs (stream : String) : List (Nat × Nat) :=
  if stream = "BCom Section B" then [(5, 6)] else descPairs 5

/-- The recognized streams of the promotion route (`teacherRoutes.js:825`). -/
def validStreams : List String :=
  ["BCA", "BBA", "BCom", "BCom Section B", "BCom-BDA", "BCom A and F"]

/-- The `{id, name}` projection used in `promotionDetails`
(`teacherRoutes.js:876` and `:949`). -/
structure StudentRef where
  id : String
  name : String
deriving DecidableEq, Repr

/-- Id/name projection of one student. -/
def studentRef (s : Student) : StudentRef := ⟨s.studentID, s.name⟩

/-- One entry of the `promotionDetails` report array
(`teacherRoutes.js:872-877` and `:944-950`). -/
inductive Detail where
  | graduation (semester : Nat) (count : Nat) (students : List StudentRef)
  | promotion (fromSemester toSemester : Nat) (count : Nat) (students : List StudentRef)
deriving DecidableEq, Repr

/-- The `console.error` calls of the two catch blocks: the graduation
catch (`teacherRoutes.js:880`) and the per-pair catch naming the failing
pair (`teacherRoutes.js:953`). -/
inductive LogEntry where
  | graduationError (semester : Nat)
  | pairError (fromSemester toSemester : Nat)
deriving DecidableEq, Repr

/-- Injected storage failures for one run: whether the graduation step
throws, and for each promotion pair whether `insertMany` / `deleteMany`
throws (carrying the thrown error's message). -/
structure FailureOracle where
  graduationFails : Bool
  insertFails : Nat → Nat → Option String
  deleteFails : Nat → Nat → Option String

/-- The oracle of a run in which no storage operation fails. -/
def noFailures : FailureOracle := ⟨false, fun _ _ => none, fun _ _ => none⟩

/-- The successful path of the graduation step (`teacherRoutes.js:860-878`):
count semester 6, and when non-empty delete the whole bucket, reporting the
count and the removed identities.  Returns (new state, graduated count,
detail entries). -/
def graduationStep (st : State) : State × Nat × List Detail :=
  let semester6Count := (st 6).length
  if 0 < semester6Count then
    (setBucket st 6 [], semester6Count,
      [Detail.graduation 6 semester6Count ((st 6).map studentRef)])
  else (st, 0, [])

/-- The graduation step with its surrounding guard and try/catch
(`teacherRoutes.js:857-883`): it only runs when the stream's semester range
contains 6, and a thrown error is logged and swallowed, leaving the state
untouched and the graduated count 0.  Returns
(state, graduated count, details, error log). -/
def graduationPhase (fo : FailureOracle) (stream : String) (st : State) :
    State × Nat × List Detail × List LogEntry :=
  if 6 ∈ semesterRange stream then
    if fo.graduationFails then (st, 0, [], [LogEntry.graduationError 6])
    else
      let g := graduationStep st
      (g.1, g.2.1, g.2.2, [])
  else (st, 0, [], [])

/-- One iteration of the promotion loop (`teacherRoutes.js:897-951`):
read the active students of the source bucket; when at least one exists,
build the promoted records, bulk-insert them into the target bucket, then
delete the whole source bucket.  A failing insert or delete yields the
thrown message (the loop's catch then logs the pair and re-throws). -/
def runPair (ctx : RunCtx) (fo : FailureOracle) (fromSem toSem : Nat) (st : State) :
    Except String (State × Nat × List Detail) :=
  let studentsToPromote := (st fromSem).filter isActiveStudent
  if 0 < studentsToPromote.length then
    let promoted := studentsToPromote.map (promoteStudent ctx fromSem toSem)
    match fo.insertFails fromSem toSem with
    | some msg => .error msg
    | none =>
      let st1 := setBucket st toSem (st toSem ++ promoted)
      match fo.deleteFails fromSem toSem with
      | some msg => .error msg
      | none =>
        .ok (setBucket st1 fromSem [], studentsToPromote.length,
          [Detail.promotion fromSem toSem studentsToPromote.length
            (studentsToPromote.map studentRef)])
  else .ok (st, 0, [])

/-- The promotion loop over the semester pairs (`teacherRoutes.js:897-956`):
pairs run sequentially; a failing pair is logged by the catch
(`console.error("Error promoting from Semester ...")`) and the error is
re-thrown, aborting the remaining pairs. -/
def runPairs (ctx : RunCtx) (fo : FailureOracle) :
    List (Nat × Nat) → State → Except (String × List LogEntry) (State × Nat × List Detail)
  | [], st => .ok (st, 0, [])
  | (fromSem, toSem) :: rest, st =>
    match runPair ctx fo fromSem toSem st with
    | .error msg => .error (msg, [LogEntry.pairError fromSem toSem])
    | .ok (st1, c1, d1) =>
      match runPairs ctx fo rest st1 with
      | .error e => .error e
      | .ok (st2, c2, d2) => .ok (st2, c1 + c2, d1 ++ d2)

/-- Result of a committed transaction body: final session state, the two
counters and the report/log material accumulated by the run. -/
structure RunOutcome where
  state : State
  totalPromoted : Nat
  totalGraduated : Nat
  details : List Detail
  log : List LogEntry

/-- The `session.withTransaction` callback (`teacherRoutes.js:855-958`):
the guarded, error-isolated graduation phase followed by the promotion
loop; an error escaping the loop aborts the whole body. -/
def transactionBody (ctx : RunCtx) (fo : FailureOracle) (stream : String) (st : State) :
    Except (String × List LogEntry) RunOutcome :=
  let g := graduationPhase fo stream st
  match runPairs ctx fo (promotionPairs stream) g.1 with
  | .error (msg, lg) => .error (msg, g.2.2.2 ++ lg)
  | .ok (st2, promoted, d2) => .ok ⟨st2, promoted, g.2.1, g.2.2.1 ++ d2, g.2.2.2⟩

/-- Caller-visible failure of the route: the 400 rejection of an
unrecognized stream (`teacherRoutes.js:826-831`), or the error re-thrown
out of the transaction, which the Express error middleware
(`src/unnamed/part_001:93-97`) reports to the caller by its message. -/
inductive PromoError where
  | invalidStream (message : String)
  | transactionError (message : String)
deriving DecidableEq, Repr

/-- The success payload of the route (`teacherRoutes.js:984-998`),
restricted to the report fields the claims speak about. -/
structure Report where
  totalPromoted : Nat
  totalGraduated : Nat
  promotionDetails : List Detail
deriving DecidableEq, Repr

/-- What one call of the route leaves behind: the persisted buckets, the
caller-visible response, and the server error log. -/
structure RouteResult where
  state : State
  response : Except PromoError Report
  log : List LogEntry

/-- The `POST /simple-promotion/:stream` handler (`teacherRoutes.js:820-999`):
reject unrecognized streams before any storage access; otherwise run the
transaction body — on success its session state commits, on a thrown error
`withTransaction` aborts so the pre-call buckets persist and the caller
receives the re-thrown message. -/
def simplePromotion (ctx : RunCtx) (fo : FailureOracle) (stream : String) (st : State) :
    RouteResult :=
  if stream ∈ validStreams then
    match transactionBody ctx fo stream st with
    | .ok out =>
      { state := out.state
        response := .ok ⟨out.totalPromoted, out.totalGraduated, out.details⟩
        log := out.log }
    | .error (msg, lg) =>
      { state := st, response := .error (.transactionError msg), log := lg }
  else
    { state := st, response := .error (.invalidStream "Invalid stream"), log := [] }

/-- The state transformer of one promotion pair when no storage operation
fails (the `.ok` value of `runPair` with the `noFailures` oracle). -/
def runPairOk (ctx : RunCtx) (fromSem toSem : Nat) (st : State) : State :=
  let studentsToPromote := (st fromSem).filter isActiveStudent
  if 0 < studentsToPromote.length then
    setBucket
      (setBucket st toSem (st toSem ++ studentsToPromote.map (promoteStudent ctx fromSem toSem)))
      fromSem []
  else st

/-- The failure-free promotion loop as a pure state transformer. -/
def runPairsOk (ctx : RunCtx) : List (Nat × Nat) → State → State
  | [], st => st
  | (fromSem, toSem) :: rest, st => runPairsOk ctx rest (runPairOk ctx fromSem toSem st)

/-- What the guarded delete of one pair leaves in the source bucket: the
bucket survives untouched when it holds no active student (the
`studentsToPromote.length > 0` guard skips the pair), and is emptied
otherwise. -/
def residualBucket (l : List Student) : List Student :=
  if l.filter isActiveStudent = [] then l else []

/-- Total number of records in the stream's semester buckets 1-6. -/
def bucketTotal (st : State) : Nat :=
  (st 1).length + (st 2).length + (st 3).length +
    (st 4).length + (st 5).length + (st 6).length

/-- Total number of active students in the stream's semester buckets 1-6. -/
def activeTotal (st : State) : Nat :=
  ((st 1).filter isActiveStudent).length + ((st 2).filter isActiveStudent).length +
    ((st 3).filter isActiveStudent).length + ((st 4).filter isActiveStudent).length +
    ((st 5).filter isActiveStudent).length + ((st 6).filter isActiveStudent).length

/-- `STREAM_MAPPINGS` of `teacherRoutes.js:465-472`. -/
def STREAM_MAPPINGS : List (String × String) :=
  [("BCA", "bca"), ("BBA", "bba"), ("BCom", "bcom"),
   ("BCom Section B", "bcomsectionb"), ("BCom-BDA", "bcom-bda"),
   ("BCom A and F", "bcom_a_and_f")]

/-- `getCollectionName` of `teacherRoutes.js:475-493`: reject falsy
parameters (empty strings, semester 0), unknown streams and semesters
outside 1-8 (each a thrown error, modelled as `none`), then produce
`streamCode_semN_type`. -/
def getCollectionName (stream : String) (semester : Nat) (ty : String) : Option String :=
  if stream = "" ∨ semester = 0 ∨ ty = "" then none
  else
    match STREAM_MAPPINGS.lookup stream with
    | none => none
    | some streamCode =>
      if semester < 1 ∨ 8 < semester then none
      else some (streamCode ++ "_sem" ++ toString semester ++ "_" ++ ty)

/-- The stream mapping of the second `getCollectionName` copy
(`src/unnamed/part_000:7-14`); note `BCom-BDA` maps to `bcom_bda` here,
with an underscore instead of the hyphen used in `teacherRoutes.js`. -/
def streamMappingsAlt : List (String × String) :=
  [("BCA", "bca"), ("BBA", "bba"), ("BCom", "bcom"),
   ("BCom Section B", "bcomsectionb"), ("BCom-BDA", "bcom_bda"),
   ("BCom A and F", "bcom_a_and_f")]

/-- The fallback `stream.toLowerCase().replace(/[\s&-]/g, "_")` of
`src/unnamed/part_000:16`. -/
def sanitizeStreamCode (s : String) : String :=
  String.map (fun c => if c = ' ' ∨ c = '&' ∨ c = '-' then '_' else c) s.toLower

/-- `getCollectionName` of `src/unnamed/part_000:6-21`: mapped code or
sanitized fallback, no validation. -/
def getCollectionNameAlt (stream : String) (semester : Nat) (ty : String) : String :=
  let streamCode :=
    match streamMappingsAlt.lookup stream with
    | some code => code
    | none => sanitizeStreamCode stream
  streamCode ++ "_sem" ++ toString semester ++ "_" ++ ty

/-! ### Concrete sample data for witnesses and counterexamples -/

/-- A fixed run context used by the concrete test runs. -/
def sampleCtx : RunCtx := ⟨100, "batch1", "2026"⟩

/-- An active student record with the given id and semester. -/
def sampleStudent (id : String) (sem : Nat) : Student :=
  { studentID := id, name := "SAMPLE NAME", stream := "BCA", semester := sem,
    parentPhone := "9999999999", languageSubject := none, languageGroup := none,
    isActive := some (some true), migrationGeneration := some 0,
    originalSemester := some sem, addedToSemesterDate := some 0,
    lastMigrationDate := none, migrationBatch := none,
    migrationHistory := some [], academicYear := none }

/-- A deactivated student record (`isActive: false`). -/
def inactiveStudent (id : String) (sem : Nat) : Student :=
  { sampleStudent id sem with isActive := some (some false) }

/-- A pre-call state with a single active student in semester 4. -/
def stSem4 : State := fun j => if j = 4 then [sampleStudent "AAA111" 4] else []

/-- A pre-call state with a single active student in semester 2. -/
def stSem2 : State := fun j => if j = 2 then [sampleStudent "DDD444" 2] else []

/-- A pre-call state with a single active student in semester 5. -/
def stSem5 : State := fun j => if j = 5 then [sampleStudent "CCC333" 5] else []

/-- A pre-call state whose only record is an inactive student in
semester 3. -/
def stSem3Inactive : State :=
  fun j => if j = 3 then [inactiveStudent "BBB222" 3] else []

/-- A pre-call state with every bucket empty. -/
def stEmpty : State := fun _ => []

/-- An oracle making the `insertMany` of pair `4→5` throw `"boom"`. -/
def insertFail45 : FailureOracle :=
  ⟨false, fun f _ => if f = 4 then some "boom" else none, fun _ _ => none⟩

/-- An oracle making the `insertMany` of pair `2→3` throw `"boom"`. -/
def insertFail23 : FailureOracle :=
  ⟨false, fun f _ => if f = 2 then some "boom" else none, fun _ _ => none⟩

/-- An oracle making only the graduation step throw. -/
def gradFailOracle : FailureOracle := ⟨true, fun _ _ => none, fun _ _ => none⟩

/-- Every collection name the `teacherRoutes.js` naming function produces
over the recognized streams, semesters 1-8 and the two roster entity
types. -/
def allCollectionNames : List (Option String) :=
  validStreams.flatMap fun s =>
    (List.range 8).flatMap fun i =>
      ["students", "subjects"].map fun ty => getCollectionName s (i + 1) ty

/-! ### Basic lemmas about the embedded operations -/

lemma jsOrNat_zero (m : Option Nat) : jsOrNat m 0 = m.getD 0 := by
  match m with
  | none => rfl
  | some 0 => rfl
  | some (n + 1) => rfl

lemma jsOrNat_pos (v d : Nat) (h : 1 ≤ v) : jsOrNat (some v) d = v := by
  match v, h with
  | n + 1, _ => rfl

lemma promoteStudent_active (ctx : RunCtx) (fromSem toSem : Nat) (s : Student) :
    isActiveStudent (promoteStudent ctx fromSem toSem s) = true := rfl

lemma six_mem_semesterRange (stream : String) : 6 ∈ semesterRange stream := by
  unfold semesterRange
  split <;> decide

lemma graduationStep_state_apply (st : State) (j : Nat) :
    (graduationStep st).1 j = if j = 6 then [] else st j := by
  by_cases hpos : 0 < (st 6).length
  · by_cases hj : j = 6
    · subst hj; simp [graduationStep, hpos, setBucket]
    · simp [graduationStep, hpos, setBucket, hj]
  · have h6 : st 6 = [] := List.length_eq_zero.mp (Nat.eq_zero_of_not_pos hpos)
    by_cases hj : j = 6
    · subst hj; simp [graduationStep, hpos, h6]
    · simp [graduationStep, hpos, hj]

lemma graduationStep_count (st : State) : (graduationStep st).2.1 = (st 6).length := by
  by_cases hpos : 0 < (st 6).length
  · simp [graduationStep, hpos]
  · simp [graduationStep, hpos]
    omega

lemma runPairOk_ne (ctx : RunCtx) (fromSem toSem : Nat) (st : State) (j : Nat)
    (h1 : j ≠ fromSem) (h2 : j ≠ toSem) :
    runPairOk ctx fromSem toSem st j = st j := by
  by_cases hpos : 0 < ((st fromSem).filter isActiveStudent).length
  · simp [runPairOk, hpos, setBucket, h1, h2]
  · simp [runPairOk, hpos]

lemma runPairOk_src (ctx : RunCtx) (fromSem toSem : Nat) (st : State) :
    runPairOk ctx fromSem toSem st fromSem = residualBucket (st fromSem) := by
  by_cases hpos : 0 < ((st fromSem).filter isActiveStudent).length
  · have hne : (st fromSem).filter isActiveStudent ≠ [] := by
      intro he
      rw [he] at hpos
      exact Nat.lt_irrefl 0 hpos
    simp [runPairOk, residualBucket, hpos, hne, setBucket]
  · have he : (st fromSem).filter isActiveStudent = [] :=
      List.length_eq_zero.mp (Nat.eq_zero_of_not_pos hpos)
    simp [runPairOk, residualBucket, hpos, he]

lemma runPairOk_tgt (ctx : RunCtx) (fromSem toSem : Nat) (st : State)
    (h : fromSem ≠ toSem) :
    runPairOk ctx fromSem toSem st toSem
      = st toSem
        ++ ((st fromSem).filter isActiveStudent).map (promoteStudent ctx fromSem toSem) := by
  by_cases hpos : 0 < ((st fromSem).filter isActiveStudent).length
  · simp [runPairOk, hpos, setBucket, Ne.symm h]
  · have he : (st fromSem).filter isActiveStudent = [] :=
      List.length_eq_zero.mp (Nat.eq_zero_of_not_pos hpos)
    simp [runPairOk, hpos, he]

lemma runPair_noFailures_ok (ctx : RunCtx) (fromSem toSem : Nat) (st : State) :
    ∃ c d, runPair ctx noFailures fromSem toSem st
      = .ok (runPairOk ctx fromSem toSem st, c, d) := by
  unfold runPair runPairOk noFailures
  dsimp only
  split
  · exact ⟨_, _, rfl⟩
  · exact ⟨0, [], rfl⟩

lemma runPairs_noFailures_ok (ctx : RunCtx) (ps : List (Nat × Nat)) :
    ∀ st, ∃ c d, runPairs ctx noFailures ps st = .ok (runPairsOk ctx ps st, c, d) := by
  induction ps with
  | nil => intro st; exact ⟨0, [], rfl⟩
  | cons p rest ih =>
      intro st
      obtain ⟨f, t⟩ := p
      obtain ⟨c1, d1, h1⟩ := runPair_noFailures_ok ctx f t st
      obtain ⟨c2, d2, h2⟩ := ih (runPairOk ctx f t st)
      refine ⟨c1 + c2, d1 ++ d2, ?_⟩
      unfold runPairs
      rw [h1]
      dsimp only
      rw [h2]
      rfl

lemma runPairs_error_shape (ctx : RunCtx) (fo : FailureOracle) (ps : List (Nat × Nat)) :
    ∀ st msg lg, runPairs ctx fo ps st = .error (msg, lg) →
      ∃ f t, lg = [LogEntry.pairError f t] ∧ (f, t) ∈ ps := by
  induction ps with
  | nil =>
      intro st msg lg h
      exact absurd h (by unfold runPairs; exact fun hc => Except.noConfusion hc)
  | cons p rest ih =>
      intro st msg lg h
      obtain ⟨f, t⟩ := p
      unfold runPairs at h
      cases hp : runPair ctx fo f t st with
      | error m =>
          rw [hp] at h
          dsimp only at h
          obtain ⟨-, hlg⟩ := Prod.mk.injEq .. ▸ Except.error.inj h
          exact ⟨f, t, hlg.symm ▸ rfl, List.mem_cons_self _ _⟩
      | ok v =>
          obtain ⟨st1, c1, d1⟩ := v
          rw [hp] at h
          dsimp only at h
          cases hr : runPairs ctx fo rest st1 with
          | error e =>
              obtain ⟨m2, lg2⟩ := e
              rw [hr] at h
              dsimp only at h
              obtain ⟨hm, hlg⟩ := Prod.mk.injEq .. ▸ Except.error.inj h
              obtain ⟨f2, t2, hshape, hmem⟩ := ih st1 m2 lg2 hr
              exact ⟨f2, t2, hlg ▸ hshape, List.mem_cons_of_mem _ hmem⟩
          | ok w =>
              rw [hr] at h
              exact absurd h (by dsimp only; exact fun hc => Except.noConfusion hc)

lemma graduationPhase_noFailures (stream : String) (st : State) :
    graduationPhase noFailures stream st
      = ((graduationStep st).1, (graduationStep st).2.1, (graduationStep st).2.2, []) := by
  unfold graduationPhase
  rw [if_pos (six_mem_semesterRange stream)]
  rfl

lemma simplePromotion_noFailures_run (ctx : RunCtx) (stream : String) (st : State)
    (hs : stream ∈ validStreams) :
    ∃ p d, simplePromotion ctx noFailures stream st =
      { state := runPairsOk ctx (promotionPairs stream) ((graduationStep st).1)
        response := .ok ⟨p, (st 6).length, d⟩
        log := [] } := by
  obtain ⟨c, d, hrp⟩ :=
    runPairs_noFailures_ok ctx (promotionPairs stream) ((graduationStep st).1)
  refine ⟨c, (graduationStep st).2.2 ++ d, ?_⟩
  unfold simplePromotion transactionBody
  rw [if_pos hs, graduationPhase_noFailures]
  dsimp only
  rw [hrp]
  dsimp only
  rw [graduationStep_count]

/-- The five pairs of a full-range stream, as produced by the descending
loop. -/
lemma descPairs_five : descPairs 5 = [(5, 6), (4, 5), (3, 4), (2, 3), (1, 2)] := rfl

/-- Bucket contents after the failure-free promotion loop of a full-range
stream: bucket `j ≤ 5` keeps its residual (it survives untouched exactly
when it held no active student), and every bucket `j ≥ 2` additionally
receives the one-hop promotion of the active students that bucket `j-1`
held before the loop. -/
lemma descRun_bucket (ctx : RunCtx) (g : State) (j : Nat) (h1 : 1 ≤ j) (h6 : j ≤ 6) :
    runPairsOk ctx (descPairs 5) g j =
      (if j ≤ 5 then residualBucket (g j) else g 6) ++
        (if 2 ≤ j then
          ((g (j - 1)).filter isActiveStudent).map (promoteStudent ctx (j - 1) j)
         else []) := by
  rw [descPairs_five]
  interval_cases j <;>
    simp [runPairsOk, runPairOk_ne, runPairOk_src, runPairOk_tgt]

lemma promotionPairs_regular (stream : String) (h : stream ≠ "BCom Section B") :
    promotionPairs stream = descPairs 5 := by
  unfold promotionPairs
  rw [if_neg h]

lemma promotionPairs_sectionB : promotionPairs "BCom Section B" = [(5, 6)] := rfl

/-- Bucket contents after one full failure-free run of a full-range
stream: the graduation step empties bucket 6, then each pair moves the
active students one bucket up, in descending order of source semester. -/
lemma regularRun_bucket (ctx : RunCtx) (stream : String) (st : State)
    (hs : stream ∈ validStreams) (hne : stream ≠ "BCom Section B")
    (j : Nat) (h1 : 1 ≤ j) (h6 : j ≤ 6) :
    (simplePromotion ctx noFailures stream st).state j =
      (if j = 6 then [] else residualBucket (st j)) ++
        (if 2 ≤ j then
          ((st (j - 1)).filter isActiveStudent).map (promoteStudent ctx (j - 1) j)
         else []) := by
  obtain ⟨p, d, hrun⟩ := simplePromotion_noFailures_run ctx stream st hs
  rw [hrun]
  dsimp only
  rw [promotionPairs_regular stream hne]
  rw [descRun_bucket ctx ((graduationStep st).1) j h1 h6]
  interval_cases j <;> simp [graduationStep_state_apply]

/-! ### Claim theorems -/

/-- C2: during a single failure-free promotion run, the descending pair
order guarantees no student is promoted twice.  For every pair `(k, k+1)`
of the run, the post-run bucket `k+1` consists of the (possibly surviving)
residual of its own pre-run content plus exactly one application of the
promotion transform to each active student that bucket `k` held before
the run — so every active pre-run student of semester `k` undergoes the
single hop `k → k+1` and is never re-read by a later pair. -/
theorem c2_no_double_promotion (ctx : RunCtx) (stream : String) (st : State)
    (hs : stream ∈ validStreams) (k : Nat)
    (hk : (k, k + 1) ∈ promotionPairs stream) :
    (simplePromotion ctx noFailures stream st).state (k + 1)
      = (if k + 1 = 6 then [] else residualBucket (st (k + 1)))
        ++ ((st k).filter isActiveStudent).map (promoteStudent ctx k (k + 1)) ∧
    ∀ s ∈ (st k).filter isActiveStudent,
      promoteStudent ctx k (k + 1) s
        ∈ (simplePromotion ctx noFailures stream st).state (k + 1) := by
  have hmain : (simplePromotion ctx noFailures stream st).state (k + 1)
      = (if k + 1 = 6 then [] else residualBucket (st (k + 1)))
        ++ ((st k).filter isActiveStudent).map (promoteStudent ctx k (k + 1)) := by
    by_cases hb : stream = "BCom Section B"
    · subst hb
      rw [promotionPairs_sectionB] at hk
      have hk5 : k = 5 := by
        simp [Prod.ext_iff] at hk
        omega
      subst hk5
      obtain ⟨p, d, hrun⟩ :=
        simplePromotion_noFailures_run ctx "BCom Section B" st (by decide)
      rw [hrun]
      dsimp only
      rw [promotionPairs_sectionB]
      simp [runPairsOk, runPairOk_tgt, graduationStep_state_apply]
    · have hkb : 1 ≤ k ∧ k ≤ 5 := by
        rw [promotionPairs_regular stream hb, descPairs_five] at hk
        simp [Prod.ext_iff] at hk
        rcases hk with ⟨h, -⟩ | ⟨h, -⟩ | ⟨h, -⟩ | ⟨h, -⟩ | ⟨h, -⟩ <;> omega
      rw [regularRun_bucket ctx stream st hs hb (k + 1) (by omega) (by omega)]
      rw [if_pos (by omega : 2 ≤ k + 1)]
      simp
  refine ⟨hmain, ?_⟩
  intro s hsmem
  rw [hmain]
  exact List.mem_append_right _ (List.mem_map_of_mem _ hsmem)

/-- Witness for C2: stream `BCA`, pair `4→5`, one active student in
semester 4. -/
theorem c2_no_double_promotion_witness :
    ("BCA" ∈ validStreams ∧ (4, 5) ∈ promotionPairs "BCA") ∧
    ((simplePromotion sampleCtx noFailures "BCA" stSem4).state 5
      = (if (5 : Nat) = 6 then [] else residualBucket (stSem4 5))
        ++ ((stSem4 4).filter isActiveStudent).map (promoteStudent sampleCtx 4 5) ∧
     ∀ s ∈ (stSem4 4).filter isActiveStudent,
       promoteStudent sampleCtx 4 5 s
         ∈ (simplePromotion sampleCtx noFailures "BCA" stSem4).state 5) :=
  ⟨⟨by decide, by decide⟩,
    c2_no_double_promotion sampleCtx "BCA" stSem4 (by decide) 4 (by decide)⟩

/-- C3 (counterexample): on a run of stream `BCA` whose only student is
active in semester 4, the student does NOT end the run in semester 6 with
two hops — bucket 6 ends empty and the student sits in bucket 5 with
exactly one recorded migration-history hop. -/
theorem c3_counterexample :
    (simplePromotion sampleCtx noFailures "BCA" stSem4).state 6 = [] ∧
    (simplePromotion sampleCtx noFailures "BCA" stSem4).state 5
      = [promoteStudent sampleCtx 4 5 (sampleStudent "AAA111" 4)] ∧
    ((promoteStudent sampleCtx 4 5
        (sampleStudent "AAA111" 4)).migrationHistory.getD []).length = 1 :=
  ⟨rfl, rfl, rfl⟩

/-- C3 (amended): with the pairs `5→6, 4→5, 3→4, 2→3, 1→2` processed in
that order, a student who starts the failure-free run active in semester 4
ends the run in semester 5 — exactly one recorded hop (`4→5`) appended to
the prior history, not zero hops and not a skip. -/
theorem c3_one_hop_from_sem4 (ctx : RunCtx) (stream : String) (st : State)
    (hs : stream ∈ validStreams) (hne : stream ≠ "BCom Section B") :
    (simplePromotion ctx noFailures stream st).state 5
      = residualBucket (st 5)
        ++ ((st 4).filter isActiveStudent).map (promoteStudent ctx 4 5) ∧
    ∀ s ∈ (st 4).filter isActiveStudent,
      (promoteStudent ctx 4 5 s).semester = 5 ∧
      (promoteStudent ctx 4 5 s).migrationHistory
        = some (s.migrationHistory.getD [] ++
            [{ fromSemester := 4, toSemester := 5,
               migratedDate := ctx.promotionDate,
               migrationBatch := ctx.promotionBatch,
               generation := jsOrNat s.migrationGeneration 0 + 1 }]) := by
  constructor
  · have hb := regularRun_bucket ctx stream st hs hne 5 (by omega) (by omega)
    simpa using hb
  · intro s hsmem
    exact ⟨rfl, rfl⟩

/-- Witness for the amended C3: stream `BCA` with one active student in
semester 4. -/
theorem c3_one_hop_from_sem4_witness :
    ("BCA" ∈ validStreams ∧ "BCA" ≠ "BCom Section B") ∧
    ((simplePromotion sampleCtx noFailures "BCA" stSem4).state 5
      = residualBucket (stSem4 5)
        ++ ((stSem4 4).filter isActiveStudent).map (promoteStudent sampleCtx 4 5) ∧
    ∀ s ∈ (stSem4 4).filter isActiveStudent,
      (promoteStudent sampleCtx 4 5 s).semester = 5 ∧
      (promoteStudent sampleCtx 4 5 s).migrationHistory
        = some (s.migrationHistory.getD [] ++
            [{ fromSemester := 4, toSemester := 5,
               migratedDate := sampleCtx.promotionDate,
               migrationBatch := sampleCtx.promotionBatch,
               generation := jsOrNat s.migrationGeneration 0 + 1 }])) :=
  ⟨⟨by decide, by decide⟩,
    c3_one_hop_from_sem4 sampleCtx "BCA" stSem4 (by decide) (by decide)⟩

/-- C7: a failure-free run for `BCom Section B` (range 5-6 only) empties
semester 5 of its (active-containing) bucket, fills semester 6 with the
promoted semester-5 actives, graduates (deletes and counts) the pre-run
semester-6 records, and leaves semesters 1-4 completely unchanged. -/
theorem c7_sectionB_run (ctx : RunCtx) (st : State)
    (h5 : (st 5).filter isActiveStudent ≠ []) :
    (simplePromotion ctx noFailures "BCom Section B" st).state 5 = [] ∧
    (simplePromotion ctx noFailures "BCom Section B" st).state 6
      = ((st 5).filter isActiveStudent).map (promoteStudent ctx 5 6) ∧
    (∀ j, 1 ≤ j → j ≤ 4 →
      (simplePromotion ctx noFailures "BCom Section B" st).state j = st j) ∧
    ∃ rep,
      (simplePromotion ctx noFailures "BCom Section B" st).response = .ok rep ∧
      rep.totalGraduated = (st 6).length := by
  obtain ⟨p, d, hrun⟩ :=
    simplePromotion_noFailures_run ctx "BCom Section B" st (by decide)
  rw [hrun]
  dsimp only
  rw [promotionPairs_sectionB]
  refine ⟨?_, ?_, ?_, ⟨⟨p, (st 6).length, d⟩, rfl, rfl⟩⟩
  · simp [runPairsOk, runPairOk_src, graduationStep_state_apply,
      residualBucket, h5]
  · simp [runPairsOk, runPairOk_tgt, graduationStep_state_apply]
  · intro j hj1 hj4
    simp only [runPairsOk]
    rw [runPairOk_ne ctx 5 6 _ j (by omega) (by omega), graduationStep_state_apply,
      if_neg (by omega : ¬ j = 6)]

/-- Witness for C7: one active student in semester 5. -/
theorem c7_sectionB_run_witness :
    ((stSem5 5).filter isActiveStudent ≠ []) ∧
    ((simplePromotion sampleCtx noFailures "BCom Section B" stSem5).state 5 = [] ∧
    (simplePromotion sampleCtx noFailures "BCom Section B" stSem5).state 6
      = ((stSem5 5).filter isActiveStudent).map (promoteStudent sampleCtx 5 6) ∧
    (∀ j, 1 ≤ j → j ≤ 4 →
      (simplePromotion sampleCtx noFailures "BCom Section B" stSem5).state j = stSem5 j) ∧
    ∃ rep,
      (simplePromotion sampleCtx noFailures "BCom Section B" stSem5).response = .ok rep ∧
      rep.totalGraduated = (stSem5 6).length) :=
  ⟨by decide, c7_sectionB_run sampleCtx stSem5 (by decide)⟩

/-- C6: a graduation-step failure is isolated — it is logged, it
contributes zero to the graduated count, and the promotion pairs still
execute on the untouched pre-call state: when the pairs succeed the call
succeeds, and a pair failure (not the graduation failure) is the only way
the run aborts. -/
theorem c6_graduation_failure_isolated (ctx : RunCtx)
    (ins del : Nat → Nat → Option String) (stream : String) (st : State)
    (hs : stream ∈ validStreams) :
    (∀ st2 p d,
      runPairs ctx ⟨true, ins, del⟩ (promotionPairs stream) st = .ok (st2, p, d) →
      simplePromotion ctx ⟨true, ins, del⟩ stream st
        = { state := st2, response := .ok ⟨p, 0, d⟩,
            log := [LogEntry.graduationError 6] }) ∧
    (∀ msg lg,
      runPairs ctx ⟨true, ins, del⟩ (promotionPairs stream) st = .error (msg, lg) →
      simplePromotion ctx ⟨true, ins, del⟩ stream st
        = { state := st, response := .error (.transactionError msg),
            log := LogEntry.graduationError 6 :: lg }) := by
  have hphase : graduationPhase ⟨true, ins, del⟩ stream st
      = (st, 0, [], [LogEntry.graduationError 6]) := by
    unfold graduationPhase
    rw [if_pos (six_mem_semesterRange stream)]
    rfl
  constructor
  · intro st2 p d h
    unfold simplePromotion transactionBody
    rw [if_pos hs, hphase]
    dsimp only
    rw [h]
    rfl
  · intro msg lg h
    unfold simplePromotion transactionBody
    rw [if_pos hs, hphase]
    dsimp only
    rw [h]
    rfl

/-- Witness for C6: graduation failure on stream `BCA` with empty buckets
still yields a successful response with graduated count 0. -/
theorem c6_graduation_failure_isolated_witness :
    ("BCA" ∈ validStreams) ∧
    simplePromotion sampleCtx gradFailOracle "BCA" stEmpty
      = { state := stEmpty, response := .ok ⟨0, 0, []⟩,
          log := [LogEntry.graduationError 6] } :=
  ⟨by decide,
    (c6_graduation_failure_isolated sampleCtx (fun _ _ => none) (fun _ _ => none)
      "BCA" stEmpty (by decide)).1 stEmpty 0 [] rfl⟩

/-- C1 (counterexample): two runs failing at different promotion pairs —
insert failure at `4→5` versus at `2→3`, both throwing the same underlying
message — produce identical caller-visible responses, so the error
surfaced to the caller does not identify the failing pair; only the server
log (the `console.error` of the loop's catch) does. -/
theorem c1_counterexample :
    (simplePromotion sampleCtx insertFail45 "BCA" stSem4).response
      = (simplePromotion sampleCtx insertFail23 "BCA" stSem2).response ∧
    (simplePromotion sampleCtx insertFail45 "BCA" stSem4).log
      = [LogEntry.pairError 4 5] ∧
    (simplePromotion sampleCtx insertFail23 "BCA" stSem2).log
      = [LogEntry.pairError 2 3] :=
  ⟨rfl, rfl, rfl⟩

/-- C1 (amended): when any promotion pair's insert or delete fails, the
entire run is aborted — every bucket of the stream is left exactly equal
to its pre-call state and the caller receives the underlying re-thrown
error — and the failing pair is identified in the server error log
(not in the caller-visible error). -/
theorem c1_abort_restores_buckets (ctx : RunCtx) (fo : FailureOracle)
    (stream : String) (st : State) (msg : String)
    (h : (simplePromotion ctx fo stream st).response
      = .error (.transactionError msg)) :
    (simplePromotion ctx fo stream st).state = st ∧
    ∃ fromSem toSem lg,
      (simplePromotion ctx fo stream st).log
        = lg ++ [LogEntry.pairError fromSem toSem] ∧
      (fromSem, toSem) ∈ promotionPairs stream := by
  by_cases hs : stream ∈ validStreams
  · cases htb : transactionBody ctx fo stream st with
    | ok out =>
        exfalso
        unfold simplePromotion at h
        rw [if_pos hs, htb] at h
        simp at h
    | error e =>
        obtain ⟨m, lg⟩ := e
        have hsp : simplePromotion ctx fo stream st
            = { state := st, response := .error (.transactionError m), log := lg } := by
          unfold simplePromotion
          rw [if_pos hs, htb]
        unfold transactionBody at htb
        dsimp only at htb
        cases hrp : runPairs ctx fo (promotionPairs stream)
            ((graduationPhase fo stream st).1) with
        | ok w =>
            exfalso
            rw [hrp] at htb
            simp at htb
        | error e2 =>
            obtain ⟨m2, lg2⟩ := e2
            rw [hrp] at htb
            dsimp only at htb
            obtain ⟨hm, hlg⟩ := Prod.mk.injEq .. ▸ Except.error.inj htb
            obtain ⟨f, t, hshape, hmem⟩ :=
              runPairs_error_shape ctx fo (promotionPairs stream) _ m2 lg2 hrp
            refine ⟨by rw [hsp], f, t, (graduationPhase fo stream st).2.2.2, ?_, hmem⟩
            rw [hsp]
            dsimp only
            rw [← hlg, hshape]
  · exfalso
    unfold simplePromotion at h
    rw [if_neg hs] at h
    simp at h

/-- Witness for the amended C1: insert failure at pair `4→5` on stream
`BCA` with one active student in semester 4. -/
theorem c1_abort_restores_buckets_witness :
    ((simplePromotion sampleCtx insertFail45 "BCA" stSem4).response
      = .error (.transactionError "boom")) ∧
    ((simplePromotion sampleCtx insertFail45 "BCA" stSem4).state = stSem4 ∧
    ∃ fromSem toSem lg,
      (simplePromotion sampleCtx insertFail45 "BCA" stSem4).log
        = lg ++ [LogEntry.pairError fromSem toSem] ∧
      (fromSem, toSem) ∈ promotionPairs "BCA") :=
  ⟨rfl, c1_abort_restores_buckets sampleCtx insertFail45 "BCA" stSem4 "boom" rfl⟩

/-- C4: the record inserted for a student promoted `from → to` carries
`semester = to`, the generation bumped by one (prior defaulting to 0 when
absent), the preserved (or else `from`-initialized) original semester, the
run's timestamp as both `lastMigrationDate` and `addedToSemesterDate`, the
run's batch id, and the prior history with exactly one appended hop entry.
The hypothesis reflects the data model: a stored `originalSemester` is a
semester number, hence at least 1 (the JavaScript `||` default would also
replace a zero value). -/
theorem c4_promoted_record_fields (ctx : RunCtx) (fromSem toSem : Nat) (s : Student)
    (horig : ∀ v, s.originalSemester = some v → 1 ≤ v) :
    (promoteStudent ctx fromSem toSem s).semester = toSem ∧
    (promoteStudent ctx fromSem toSem s).migrationGeneration
      = some (s.migrationGeneration.getD 0 + 1) ∧
    (promoteStudent ctx fromSem toSem s).originalSemester
      = some (s.originalSemester.getD fromSem) ∧
    (promoteStudent ctx fromSem toSem s).lastMigrationDate = some ctx.promotionDate ∧
    (promoteStudent ctx fromSem toSem s).addedToSemesterDate = some ctx.promotionDate ∧
    (promoteStudent ctx fromSem toSem s).migrationBatch = some ctx.promotionBatch ∧
    (promoteStudent ctx fromSem toSem s).migrationHistory
      = some (s.migrationHistory.getD [] ++
          [{ fromSemester := fromSem, toSemester := toSem,
             migratedDate := ctx.promotionDate,
             migrationBatch := ctx.promotionBatch,
             generation := s.migrationGeneration.getD 0 + 1 }]) := by
  refine ⟨rfl, ?_, ?_, rfl, rfl, rfl, ?_⟩
  · unfold promoteStudent
    dsimp only
    rw [jsOrNat_zero]
  · unfold promoteStudent
    dsimp only
    cases hos : s.originalSemester with
    | none => rfl
    | some v => rw [jsOrNat_pos v fromSem (horig v hos)]; rfl
  · unfold promoteStudent
    dsimp only
    rw [jsOrNat_zero]

/-- Witness for C4: the sample active student of semester 4, promoted
`4→5`. -/
theorem c4_promoted_record_fields_witness :
    (∀ v, (sampleStudent "AAA111" 4).originalSemester = some v → 1 ≤ v) ∧
    ((promoteStudent sampleCtx 4 5 (sampleStudent "AAA111" 4)).semester = 5 ∧
    (promoteStudent sampleCtx 4 5 (sampleStudent "AAA111" 4)).migrationGeneration
      = some ((sampleStudent "AAA111" 4).migrationGeneration.getD 0 + 1) ∧
    (promoteStudent sampleCtx 4 5 (sampleStudent "AAA111" 4)).originalSemester
      = some ((sampleStudent "AAA111" 4).originalSemester.getD 4) ∧
    (promoteStudent sampleCtx 4 5 (sampleStudent "AAA111" 4)).lastMigrationDate
      = some sampleCtx.promotionDate ∧
    (promoteStudent sampleCtx 4 5 (sampleStudent "AAA111" 4)).addedToSemesterDate
      = some sampleCtx.promotionDate ∧
    (promoteStudent sampleCtx 4 5 (sampleStudent "AAA111" 4)).migrationBatch
      = some sampleCtx.promotionBatch ∧
    (promoteStudent sampleCtx 4 5 (sampleStudent "AAA111" 4)).migrationHistory
      = some ((sampleStudent "AAA111" 4).migrationHistory.getD [] ++
          [{ fromSemester := 4, toSemester := 5,
             migratedDate := sampleCtx.promotionDate,
             migrationBatch := sampleCtx.promotionBatch,
             generation := (sampleStudent "AAA111" 4).migrationGeneration.getD 0 + 1 }])) := by
  have horig : ∀ v, (sampleStudent "AAA111" 4).originalSemester = some v → 1 ≤ v := by
    intro v hv
    simp [sampleStudent] at hv
    omega
  exact ⟨horig, c4_promoted_record_fields sampleCtx 4 5 (sampleStudent "AAA111" 4) horig⟩

/-- C5: promotion preserves the invariant
`migrationGeneration = length migrationHistory` (assuming it held before),
the history is append-only (the new history is the prior history plus one
entry, so no prior entry is lost or mutated), and a set `originalSemester`
(a semester number, hence nonzero) never changes. -/
theorem c5_invariants (ctx : RunCtx) (fromSem toSem : Nat) (s : Student)
    (hgen : jsOrNat s.migrationGeneration 0 = (s.migrationHistory.getD []).length)
    (horig : ∀ v, s.originalSemester = some v → 1 ≤ v) :
    jsOrNat (promoteStudent ctx fromSem toSem s).migrationGeneration 0
      = ((promoteStudent ctx fromSem toSem s).migrationHistory.getD []).length ∧
    (∃ e, (promoteStudent ctx fromSem toSem s).migrationHistory.getD []
      = s.migrationHistory.getD [] ++ [e]) ∧
    (∀ v, s.originalSemester = some v →
      (promoteStudent ctx fromSem toSem s).originalSemester = some v) := by
  refine ⟨?_, ⟨_, rfl⟩, ?_⟩
  · unfold promoteStudent
    dsimp only
    rw [jsOrNat_pos _ _ (Nat.succ_le_succ (Nat.zero_le _))]
    simp [hgen]
  · intro v hv
    unfold promoteStudent
    dsimp only
    rw [hv, jsOrNat_pos v fromSem (horig v hv)]

/-- Witness for C5: the sample student (generation 0, empty history,
original semester 4), promoted `4→5`. -/
theorem c5_invariants_witness :
    (jsOrNat (sampleStudent "AAA111" 4).migrationGeneration 0
      = ((sampleStudent "AAA111" 4).migrationHistory.getD []).length ∧
     ∀ v, (sampleStudent "AAA111" 4).originalSemester = some v → 1 ≤ v) ∧
    (jsOrNat (promoteStudent sampleCtx 4 5 (sampleStudent "AAA111" 4)).migrationGeneration 0
      = ((promoteStudent sampleCtx 4 5
          (sampleStudent "AAA111" 4)).migrationHistory.getD []).length ∧
    (∃ e, (promoteStudent sampleCtx 4 5 (sampleStudent "AAA111" 4)).migrationHistory.getD []
      = (sampleStudent "AAA111" 4).migrationHistory.getD [] ++ [e]) ∧
    (∀ v, (sampleStudent "AAA111" 4).originalSemester = some v →
      (promoteStudent sampleCtx 4 5 (sampleStudent "AAA111" 4)).originalSemester = some v)) := by
  have horig : ∀ v, (sampleStudent "AAA111" 4).originalSemester = some v → 1 ≤ v := by
    intro v hv
    simp [sampleStudent] at hv
    omega
  exact ⟨⟨rfl, horig⟩,
    c5_invariants sampleCtx 4 5 (sampleStudent "AAA111" 4) rfl horig⟩

/-- C10: in one promotion pair, the insert-then-delete runs only when the
source bucket holds at least one active student.  With no active student
the pair is a no-op — no deletion, inactive records stay in place; with at
least one active student the source bucket is emptied entirely (inactive
records included, though they were never copied) and the target receives
exactly the promoted copies of the active students. -/
theorem c10_guarded_delete (ctx : RunCtx) (fromSem toSem : Nat) (st : State)
    (hft : fromSem ≠ toSem) :
    ((st fromSem).filter isActiveStudent = [] →
      runPair ctx noFailures fromSem toSem st = .ok (st, 0, [])) ∧
    ((st fromSem).filter isActiveStudent ≠ [] →
      ∃ c d, runPair ctx noFailures fromSem toSem st
          = .ok (runPairOk ctx fromSem toSem st, c, d) ∧
        runPairOk ctx fromSem toSem st fromSem = [] ∧
        runPairOk ctx fromSem toSem st toSem
          = st toSem ++ ((st fromSem).filter isActiveStudent).map
              (promoteStudent ctx fromSem toSem)) := by
  constructor
  · intro he
    simp [runPair, he]
  · intro hne
    obtain ⟨c, d, hok⟩ := runPair_noFailures_ok ctx fromSem toSem st
    refine ⟨c, d, hok, ?_, runPairOk_tgt ctx fromSem toSem st hft⟩
    rw [runPairOk_src]
    unfold residualBucket
    rw [if_neg hne]

/-- Witness for C10: pair `4→5` on the state with one active student in
semester 4 (the nonempty branch) — and the empty branch is exercised via
the same theorem's first conjunct on semester 1. -/
theorem c10_guarded_delete_witness :
    ((4 : Nat) ≠ 5) ∧
    ((stSem4 4).filter isActiveStudent ≠ [] ∧
    ∃ c d, runPair sampleCtx noFailures 4 5 stSem4
        = .ok (runPairOk sampleCtx 4 5 stSem4, c, d) ∧
      runPairOk sampleCtx 4 5 stSem4 4 = [] ∧
      runPairOk sampleCtx 4 5 stSem4 5
        = stSem4 5 ++ ((stSem4 4).filter isActiveStudent).map
            (promoteStudent sampleCtx 4 5)) :=
  ⟨by decide, by decide,
    (c10_guarded_delete sampleCtx 4 5 stSem4 (by decide)).2 (by decide)⟩

/-! ### Record-count conservation lemmas (C8) -/

lemma residualBucket_length_allActive (l : List Student)
    (h : l.filter isActiveStudent = l) : (residualBucket l).length = 0 := by
  unfold residualBucket
  rw [h]
  by_cases hl : l = []
  · rw [if_pos hl, hl]
    rfl
  · rw [if_neg hl]
    rfl

lemma runPairOk_preserves_allActive (ctx : RunCtx) (f t : Nat) (st : State)
    (hact : ∀ j, ∀ s ∈ st j, isActiveStudent s = true) :
    ∀ j, ∀ s ∈ runPairOk ctx f t st j, isActiveStudent s = true := by
  intro j s hmem
  by_cases hpos : 0 < ((st f).filter isActiveStudent).length
  · have hrw : runPairOk ctx f t st
        = setBucket (setBucket st t (st t ++ ((st f).filter isActiveStudent).map
            (promoteStudent ctx f t))) f [] := by
      unfold runPairOk
      rw [if_pos hpos]
    rw [hrw] at hmem
    unfold setBucket at hmem
    by_cases hjf : j = f
    · rw [if_pos hjf] at hmem
      exact absurd hmem (List.not_mem_nil s)
    · rw [if_neg hjf] at hmem
      by_cases hjt : j = t
      · rw [if_pos hjt] at hmem
        rcases List.mem_append.mp hmem with hmem2 | hmem2
        · exact hact t s hmem2
        · obtain ⟨a, -, rfl⟩ := List.mem_map.mp hmem2
          exact promoteStudent_active ctx f t a
      · rw [if_neg hjt] at hmem
        exact hact j s hmem
  · have hrw : runPairOk ctx f t st = st := by
      unfold runPairOk
      rw [if_neg hpos]
    rw [hrw] at hmem
    exact hact j s hmem

lemma bucketTotal_runPairOk (ctx : RunCtx) (f : Nat) (st : State)
    (hf1 : 1 ≤ f) (hf6 : f < 6)
    (hact : ∀ s ∈ st f, isActiveStudent s = true) :
    bucketTotal (runPairOk ctx f (f + 1) st) = bucketTotal st := by
  have hfilter : (st f).filter isActiveStudent = st f := List.filter_eq_self.mpr hact
  interval_cases f <;>
    simp [bucketTotal, runPairOk_ne, runPairOk_src, runPairOk_tgt, hfilter,
      residualBucket_length_allActive _ hfilter] <;>
    omega

lemma bucketTotal_runPairsOk (ctx : RunCtx) (ps : List (Nat × Nat)) :
    ∀ st, (∀ q ∈ ps, 1 ≤ q.1 ∧ q.2 = q.1 + 1 ∧ q.1 < 6) →
      (∀ j, ∀ s ∈ st j, isActiveStudent s = true) →
      bucketTotal (runPairsOk ctx ps st) = bucketTotal st := by
  induction ps with
  | nil => intro st _ _; rfl
  | cons q rest ih =>
      intro st hps hact
      obtain ⟨f, t⟩ := q
      obtain ⟨hf1, hft, hf6⟩ := hps (f, t) (List.mem_cons_self _ _)
      dsimp only at hf1 hft hf6
      subst hft
      unfold runPairsOk
      rw [ih (runPairOk ctx f (f + 1) st)
            (fun q hq => hps q (List.mem_cons_of_mem _ hq))
            (runPairOk_preserves_allActive ctx f (f + 1) st hact)]
      exact bucketTotal_runPairOk ctx f st hf1 hf6 (fun s hs2 => hact f s hs2)

lemma bucketTotal_graduation (st : State) :
    bucketTotal ((graduationStep st).1) + (st 6).length = bucketTotal st := by
  simp [bucketTotal, graduationStep_state_apply]
  try omega

lemma activeTotal_eq_bucketTotal (st : State)
    (hact : ∀ j, ∀ s ∈ st j, isActiveStudent s = true) :
    activeTotal st = bucketTotal st := by
  unfold activeTotal bucketTotal
  rw [List.filter_eq_self.mpr (hact 1), List.filter_eq_self.mpr (hact 2),
    List.filter_eq_self.mpr (hact 3), List.filter_eq_self.mpr (hact 4),
    List.filter_eq_self.mpr (hact 5), List.filter_eq_self.mpr (hact 6)]

/-- C8 (counterexample): a pre-call state whose only record is an inactive
student in semester 3.  The run succeeds with 0 promoted and 0 graduated,
yet the union of the post-run buckets still holds that one record, while
the pre-run active total minus the graduated count is 0 — so the claimed
count equation fails whenever inactive records survive an untouched
bucket. -/
theorem c8_counterexample :
    (simplePromotion sampleCtx noFailures "BCA" stSem3Inactive).response
      = .ok ⟨0, 0, []⟩ ∧
    bucketTotal ((simplePromotion sampleCtx noFailures "BCA" stSem3Inactive).state)
      ≠ activeTotal stSem3Inactive - 0 :=
  ⟨rfl, by decide⟩

/-- C8 (amended): after a successful failure-free run on a state in which
every stored record is active, the number of records in the union of the
post-run buckets equals the pre-run total of active students minus the
graduated count (stated additively: post total plus graduated equals the
pre-run active total) — no student is duplicated and none is lost. -/
theorem c8_conservation (ctx : RunCtx) (stream : String) (st : State)
    (hs : stream ∈ validStreams)
    (hact : ∀ j, ∀ s ∈ st j, isActiveStudent s = true) :
    ∃ rep, (simplePromotion ctx noFailures stream st).response = .ok rep ∧
      rep.totalGraduated = (st 6).length ∧
      bucketTotal ((simplePromotion ctx noFailures stream st).state)
        + rep.totalGraduated = activeTotal st := by
  obtain ⟨p, d, hrun⟩ := simplePromotion_noFailures_run ctx stream st hs
  refine ⟨⟨p, (st 6).length, d⟩, by rw [hrun], rfl, ?_⟩
  rw [hrun]
  dsimp only
  have hcond : ∀ q ∈ promotionPairs stream, 1 ≤ q.1 ∧ q.2 = q.1 + 1 ∧ q.1 < 6 := by
    by_cases hb : stream = "BCom Section B"
    · subst hb
      rw [promotionPairs_sectionB]
      decide
    · rw [promotionPairs_regular stream hb, descPairs_five]
      decide
  have hgact : ∀ j, ∀ s ∈ (graduationStep st).1 j, isActiveStudent s = true := by
    intro j s hmem
    rw [graduationStep_state_apply] at hmem
    by_cases hj : j = 6
    · rw [if_pos hj] at hmem
      exact absurd hmem (List.not_mem_nil s)
    · rw [if_neg hj] at hmem
      exact hact j s hmem
  rw [bucketTotal_runPairsOk ctx (promotionPairs stream) ((graduationStep st).1)
    hcond hgact]
  rw [activeTotal_eq_bucketTotal st hact]
  exact bucketTotal_graduation st

/-- Witness for the amended C8: stream `BCA` with one active student in
semester 5 and nothing else. -/
theorem c8_conservation_witness :
    ("BCA" ∈ validStreams ∧
      ∀ j, ∀ s ∈ stSem5 j, isActiveStudent s = true) ∧
    ∃ rep, (simplePromotion sampleCtx noFailures "BCA" stSem5).response = .ok rep ∧
      rep.totalGraduated = (stSem5 6).length ∧
      bucketTotal ((simplePromotion sampleCtx noFailures "BCA" stSem5).state)
        + rep.totalGraduated = activeTotal stSem5 := by
  have hact : ∀ j, ∀ s ∈ stSem5 j, isActiveStudent s = true := by
    intro j s hmem
    unfold stSem5 at hmem
    by_cases hj : j = 5
    · rw [if_pos hj] at hmem
      rw [List.mem_singleton] at hmem
      subst hmem
      rfl
    · rw [if_neg hj] at hmem
      exact absurd hmem (List.not_mem_nil s)
  exact ⟨⟨by decide, hact⟩, c8_conservation sampleCtx "BCA" stSem5 (by decide) hact⟩

/-- C9: the two copies of the bucket-naming function disagree on stream
`BCom-BDA` — `teacherRoutes.js` (`STREAM_MAPPINGS`) yields
`bcom-bda_sem1_students` while the copy in `src/unnamed/part_000` yields
`bcom_bda_sem1_students` — so the same (stream, semester, type) input is
mapped to two different bucket names in different parts of the program. -/
theorem c9_naming_divergence :
    getCollectionName "BCom-BDA" 1 "students" = some "bcom-bda_sem1_students" ∧
    getCollectionNameAlt "BCom-BDA" 1 "students" = "bcom_bda_sem1_students" ∧
    getCollectionName "BCom-BDA" 1 "students"
      ≠ some (getCollectionNameAlt "BCom-BDA" 1 "students") :=
  ⟨rfl, rfl, by decide⟩

/-- Within the `teacherRoutes.js` naming function alone, the claimed
collision-freedom does hold: the 96 names over the 6 recognized streams,
semesters 1-8 and the two roster entity types are pairwise distinct. -/
theorem collectionNames_nodup : allCollectionNames.Nodup := by decide

end SmartAttendance
